import Mathlib

/-!
# Verification of the OCI documentation MCP server core

A shallow embedding of `src/oci_documentation_mcp_server/oci_ddgs.py`:
the page-windowing formatter (`format_documentation_result`), the content
classifier (`is_html_content`), the HTML normalizer
(`extract_content_from_html`), and the two tool entry points
(`search_documentation`, `read_documentation`).  Python strings are
modelled as lists of characters so that windowing arithmetic is over
character counts, exactly as Python's `len`/slicing behave.
-/

namespace OciDocs

/-- Python strings, modelled as lists of characters (Python `len` and
slicing are character based). -/
abbrev Str := List Char

/-- Lift a Lean string literal to the model. -/
def strLit (s : String) : Str := s.data

/-- Decimal rendering of a natural number, as Python f-string
interpolation of a non-negative `int` produces. -/
def natStr (n : Nat) : Str := (toString n).data

/-- Python slice `content[start : start + maxLen]` for non-negative
`start` (indices past the end give the empty string). -/
def pySlice (content : Str) (start maxLen : Nat) : Str :=
  (content.drop start).take maxLen

/-- The `WindowedResult` fields exactly as the numbers embedded in the
report by `format_documentation_result` (lines 56-69 of
`oci_ddgs.py`): `rangeStart` is the raw `start_index`, `rangeEnd` is
`start_index + len(truncated_content)`, the truncation flag is
`len(content) > start_index + max_length`, and the advertised
resumption point is `start_index + max_length`. -/
structure WindowedResult where
  totalLength : Nat
  rangeStart : Nat
  rangeEnd : Nat
  body : Str
  truncated : Bool
  nextStartIndex : Nat
  deriving Repr, DecidableEq

/-- The window computed by `format_documentation_result`. -/
def windowResult (content : Str) (start_index max_length : Nat) : WindowedResult :=
  let truncated_content := pySlice content start_index max_length
  { totalLength := content.length
    rangeStart := start_index
    rangeEnd := start_index + truncated_content.length
    body := truncated_content
    truncated := decide (content.length > start_index + max_length)
    nextStartIndex := start_index + max_length }

/-- The report built before the truncation note:
`# OCI Documentation from {url}`, the Total Length line, the Showing
line, the `---` separator and the body. -/
def reportBase (url content : Str) (start_index max_length : Nat) : Str :=
  let truncated_content := pySlice content start_index max_length
  strLit "# OCI Documentation from " ++ url ++ strLit "\n\n" ++
  strLit "**Total Length:** " ++ natStr content.length ++ strLit " characters\n" ++
  strLit "**Showing:** Characters " ++ natStr start_index ++ strLit " to " ++
    natStr (start_index + truncated_content.length) ++ strLit "\n\n" ++
  strLit "---\n\n" ++
  truncated_content

/-- The truncation note appended when more content remains, naming the
resumption index. -/
def truncNote (next : Nat) : Str :=
  strLit "\n\n---\n**Note:** Content truncated. To read more, call this function again with start_index=" ++
  natStr next

/-- The function `format_documentation_result(url, content, start_index, max_length)`
from `oci_ddgs.py` lines 56-69. -/
def format_documentation_result (url content : Str) (start_index max_length : Nat) : Str :=
  if content.length > start_index + max_length then
    reportBase url content start_index max_length ++ truncNote (start_index + max_length)
  else
    reportBase url content start_index max_length

/-- Python's `in` on strings: `strContains needle hay` holds iff
`needle` occurs contiguously in `hay` (the empty needle occurs in
everything). -/
def strContains (needle : Str) : Str → Bool
  | [] => needle.isEmpty
  | c :: rest => needle.isPrefixOf (c :: rest) || strContains needle rest

/-- Whitespace characters removed by Python's `str.strip()`. -/
def isPySpace (c : Char) : Bool :=
  c = ' ' || c = '\t' || c = '\n' || c = '\r' || c = '\x0b' || c = '\x0c'

/-- Python's `str.strip()`: drop leading and trailing whitespace. -/
def pyStrip (s : Str) : Str :=
  ((s.dropWhile isPySpace).reverse.dropWhile isPySpace).reverse

/-- The function `is_html_content(content, content_type)` from `oci_ddgs.py` lines
40-42: `'text/html' in content_type or
content.strip().startswith('<!DOCTYPE') or '<html' in content[:1000]`.
Note that Python's `startswith` is case-sensitive, so the doctype
check matches only the exact spelling `<!DOCTYPE`. -/
def is_html_content (content content_type : Str) : Bool :=
  strContains (strLit "text/html") content_type ||
  (strLit "<!DOCTYPE").isPrefixOf (pyStrip content) ||
  strContains (strLit "<html") (content.take 1000)

/-- The two content kinds of the spec's `ContentKind`. -/
inductive ContentKind
  | HTML
  | PLAIN
  deriving Repr, DecidableEq

/-- The classifier exactly as the spec's decision rule reads (after
amending the doctype comparison to the code's case-sensitive one):
first the declared content type, else the trimmed-body doctype test or
a root tag in the first 1000 characters, else PLAIN. -/
def classifySpec (body content_type : Str) : ContentKind :=
  if strContains (strLit "text/html") content_type then .HTML
  else if (strLit "<!DOCTYPE").isPrefixOf (pyStrip body) ||
          strContains (strLit "<html") (body.take 1000) then .HTML
  else .PLAIN

/-- Case-insensitive prefix comparison, formalizing the claim's
"begins with a document-type declaration token compared
case-insensitively". -/
def startsWithCI (s pre : Str) : Bool :=
  (pre.map Char.toLower).isPrefixOf (s.map Char.toLower)

/-- A raw record from the DDGS provider: a dict whose `title`, `href`
and `body` keys may each be absent (`result.get(key, '')` defaults
them). -/
structure RawRecord where
  title : Option Str
  href : Option Str
  body : Option Str

/-- The `SearchResult` shape returned to the caller of
`search_documentation` (keys `title`, `url`, `description`). -/
structure SearchResult where
  title : Str
  url : Str
  description : Str
  deriving DecidableEq

/-- Outcome of the `ddgs.text(...)` call: either an exception with a
message, or a response that Python sees as `None` or as a list of raw
records (`if response:` treats `None` and `[]` alike). -/
inductive ProviderOutcome
  | err (msg : Str)
  | ok (response : Option (List RawRecord))

/-- Characters accepted as part of a markup tag name. -/
def isTagNameChar (c : Char) : Bool := c.isAlpha || c.isDigit

/-- Modelled from the spec: the repository's `extract_content_from_html`
(lines 44-54 of `oci_ddgs.py`) delegates parsing to the external
BeautifulSoup library and rendering to the external markdownify
library, neither of which is code of this repository; following spec
section 4.2 the page is modelled as a stream of tag tokens and text
runs. -/
inductive HtmlToken
  | text (s : Str)
  | tagOpen (name : Str)
  | tagClose (name : Str)
  deriving Repr, DecidableEq

/-- Build a tag token from the characters between `<` and `>`:
closing when they start with `/`, with the lowercased leading name. -/
def mkTagToken (inner : Str) : HtmlToken :=
  match inner with
  | '/' :: r => HtmlToken.tagClose ((r.takeWhile isTagNameChar).map Char.toLower)
  | _ => HtmlToken.tagOpen ((inner.takeWhile isTagNameChar).map Char.toLower)

/-- Tokenizer state: whether we are inside a `<...>` tag, the current
run of characters, and the tokens emitted so far. -/
structure TokState where
  inTag : Bool
  cur : Str
  acc : List HtmlToken

/-- One step of the tolerant tokenizer. -/
def tokStep (st : TokState) (c : Char) : TokState :=
  if st.inTag then
    if c = '>' then ⟨false, [], st.acc ++ [mkTagToken st.cur]⟩
    else ⟨true, st.cur ++ [c], st.acc⟩
  else
    if c = '<' then
      ⟨true, [], if st.cur.isEmpty then st.acc else st.acc ++ [HtmlToken.text st.cur]⟩
    else ⟨false, st.cur ++ [c], st.acc⟩

/-- Flush the pending run at end of input: an unterminated tag is
recovered as a tag token, pending text becomes a final text run. -/
def tokFlush (st : TokState) : List HtmlToken :=
  if st.inTag then st.acc ++ [mkTagToken st.cur]
  else if st.cur.isEmpty then st.acc else st.acc ++ [HtmlToken.text st.cur]

/-- Modelled from the spec: a tolerant tokenizer ("best-effort recovery
is required") splitting the input into `<...>` tag tokens and text
runs; never fails on any input. -/
def tokenizeHtml (html : Str) : List HtmlToken :=
  tokFlush (html.foldl tokStep ⟨false, [], []⟩)

/-- Modelled from the spec: removal of the non-content nodes ("script
logic blocks and presentation/style blocks") — between a
`script`/`style` opening tag and its matching closing tag every token
is dropped. -/
def stripNonContent : List HtmlToken → Option Str → List HtmlToken
  | [], _ => []
  | HtmlToken.tagClose m :: rest, some n =>
    if m = n then stripNonContent rest none else stripNonContent rest (some n)
  | _ :: rest, some n => stripNonContent rest (some n)
  | HtmlToken.tagOpen m :: rest, none =>
    if m = strLit "script" || m = strLit "style" then
      stripNonContent rest (some m)
    else
      HtmlToken.tagOpen m :: stripNonContent rest none
  | t :: rest, none => t :: stripNonContent rest none

/-- Structural heading level of a tag name (`h1` … `h6`). -/
def headingLevel (n : Str) : Option Nat :=
  if n = strLit "h1" then some 1
  else if n = strLit "h2" then some 2
  else if n = strLit "h3" then some 3
  else if n = strLit "h4" then some 4
  else if n = strLit "h5" then some 5
  else if n = strLit "h6" then some 6
  else none

/-- Modelled from the spec: heading-aware ATX text rendering of one
token — a level-`N` heading opens as `N` leading `#` characters and a
space, block boundaries become blank lines, other markup renders to
nothing, text renders verbatim. -/
def renderToken : HtmlToken → Str
  | HtmlToken.text s => s
  | HtmlToken.tagOpen n =>
    match headingLevel n with
    | some k => strLit "\n\n" ++ List.replicate k '#' ++ strLit " "
    | none => if n = strLit "p" || n = strLit "br" then strLit "\n\n" else []
  | HtmlToken.tagClose n =>
    match headingLevel n with
    | some _ => strLit "\n\n"
    | none => if n = strLit "p" then strLit "\n\n" else []

/-- The function `extract_content_from_html(html_content)`: parse tolerantly, drop
script/style content, render the remainder with ATX headings, and
strip surrounding whitespace (the final `.strip()` is the
repository's own code). -/
def extract_content_from_html (html : Str) : Str :=
  pyStrip (((stripNonContent (tokenizeHtml html) none).map renderToken).flatten)

/-- Outcome of the `httpx` GET as `read_documentation` observes it:
either a raised `httpx.HTTPError` with a message, or a response with a
status code, a UTF-8 decoded text body, and a `content-type` header
value (defaulted to the empty string when the header is absent). -/
inductive FetchOutcome
  | httpError (msg : Str)
  | response (status : Nat) (body : Str) (contentType : Str)

/-- The domain policy regex
`^https?://docs\.oracle\.com/` of `oci_ddgs.py` line 125: the url must
begin with `http://docs.oracle.com/` or `https://docs.oracle.com/`. -/
def matchesDomainPolicy (url : Str) : Bool :=
  (strLit "http://docs.oracle.com/").isPrefixOf url ||
  (strLit "https://docs.oracle.com/").isPrefixOf url

/-- Python's `str.endswith`. -/
def strEndsWith (s suf : Str) : Bool :=
  suf.reverse.isPrefixOf s.reverse

/-- The portion of a url up to the query or fragment delimiter,
formalizing the claim's notion of the url's path for suffix tests:
the query string and fragment follow the path, so a suffix test on
the path agrees with a suffix test on this portion. -/
def beforeQuery (url : Str) : Str :=
  url.takeWhile (fun c => c != '?' && c != '#')

/-- The tool `read_documentation(url, max_length, start_index)` from
`oci_ddgs.py` lines 107-170, with the network GET abstracted as a
function from the url to a `FetchOutcome`.  Policy checks run before
any use of the fetcher; then transport and status errors short-circuit
with `Failed to fetch` strings; otherwise the body is normalized when
classified as HTML and handed to the windowing formatter. -/
def read_documentation (httpGet : Str → FetchOutcome)
    (url : Str) (max_length start_index : Nat) : Str :=
  if !matchesDomainPolicy url then
    strLit "Error: URL must be from the docs.oracle.com domain"
  else if !strEndsWith url (strLit ".htm") && !strEndsWith url (strLit ".html") then
    strLit "Error: URL must end with .htm or .html"
  else
    match httpGet url with
    | FetchOutcome.httpError e =>
      strLit "Failed to fetch " ++ url ++ strLit ": " ++ e
    | FetchOutcome.response status page_raw content_type =>
      if status ≥ 400 then
        strLit "Failed to fetch " ++ url ++ strLit " - status code " ++ natStr status
      else
        let content :=
          if is_html_content page_raw content_type then
            extract_content_from_html page_raw
          else page_raw
        format_documentation_result url content start_index max_length

/-- The query string the code sends:
`f"{search_phrase} site:docs.oracle.com"`. -/
def searchQuery (phrase : Str) : Str :=
  phrase ++ strLit " site:docs.oracle.com"

/-- The tool `search_documentation(search_phrase, limit)` from `oci_ddgs.py`
lines 72-104, with the external DDGS provider abstracted as a function
from (query, max_results) to an outcome.  On an exception it returns
the single synthetic record carrying the error text; otherwise it maps
each record's `title`/`href`/`body` fields, defaulting absent fields
to the empty string, in provider order. -/
def search_documentation (provider : Str → Nat → ProviderOutcome)
    (phrase : Str) (limit : Nat) : List SearchResult :=
  match provider (searchQuery phrase) limit with
  | .err e =>
      [⟨[], [], strLit "Error searching OCI docs: " ++ e⟩]
  | .ok none => []
  | .ok (some response) =>
      response.map fun r =>
        ⟨r.title.getD [], r.href.getD [], r.body.getD []⟩

end OciDocs

namespace OciDocs

example : strContains (strLit "text/html") (strLit "text/html; charset=utf-8") = true := by decide
example : pyStrip (strLit "  <a> \n") = strLit "<a>" := by decide
example : is_html_content (strLit "<!DOCTYPE html><p>x</p>") (strLit "") = true := by decide
example : is_html_content (strLit "<!doctype x") (strLit "") = false := by decide
example : pySlice (strLit "abcdef") 2 3 = strLit "cde" := by decide
example : pySlice (strLit "abc") 10 5 = strLit "" := by decide
example : (windowResult (strLit "abc") 10 5).rangeStart = 10 := by decide
example : natStr 10 = strLit "10" := by decide

/-- C1 counterexample: for content `"abc"` (length 3), `startIndex = 10`,
`maxLength = 5`, the reported range start is the raw 10, not
`clamp(10, 0, 3) = 3`; it exceeds the total length, and the full report
literally shows `Characters 10 to 10`. -/
theorem C1_counterexample :
    (windowResult (strLit "abc") 10 5).rangeStart = 10 ∧
    min 10 (strLit "abc").length = 3 ∧
    (windowResult (strLit "abc") 10 5).rangeStart ≠ min 10 (strLit "abc").length ∧
    (windowResult (strLit "abc") 10 5).rangeStart >
      (windowResult (strLit "abc") 10 5).totalLength ∧
    format_documentation_result (strLit "u") (strLit "abc") 10 5 =
      strLit "# OCI Documentation from u\n\n**Total Length:** 3 characters\n**Showing:** Characters 10 to 10\n\n---\n\n" := by
  refine ⟨rfl, rfl, by decide, by decide, by decide⟩

/-- C1 (amended): for every content, `startIndex ≥ 0` and
`maxLength > 0`, the window body has length at most `maxLength`, the
reported range start is `startIndex` verbatim (never clamped to the
content length), and when `startIndex ≥ len(content)` the body is
empty (though the reported range start may then exceed the total
length). -/
theorem C1_window_bounds (content : Str) (si ml : Nat) (h : 0 < ml) :
    (windowResult content si ml).body.length ≤ ml ∧
    (windowResult content si ml).rangeStart = si ∧
    (content.length ≤ si → (windowResult content si ml).body = []) := by
  refine ⟨?_, rfl, ?_⟩
  · simpa [windowResult, pySlice] using min_le_left ml (content.drop si).length
  · intro hle
    simp [windowResult, pySlice, List.drop_eq_nil_of_le hle]

/-- C1 witness: the amended statement at content `"abc"`,
`startIndex = 5`, `maxLength = 2`. -/
theorem C1_window_bounds_witness :
    (windowResult (strLit "abc") 5 2).body.length ≤ 2 ∧
    (windowResult (strLit "abc") 5 2).rangeStart = 5 ∧
    ((strLit "abc").length ≤ 5 → (windowResult (strLit "abc") 5 2).body = []) :=
  C1_window_bounds (strLit "abc") 5 2 (by decide)

/-- C2: the window is marked truncated iff
`len(content) > startIndex + maxLength`; exactly when truncated the
report is the base report extended with the note naming
`nextStartIndex = startIndex + maxLength`, and when not truncated the
report is the base report alone, with no note. -/
theorem C2_truncation (url content : Str) (si ml : Nat) (h : 0 < ml) :
    ((windowResult content si ml).truncated = true ↔ content.length > si + ml) ∧
    (windowResult content si ml).nextStartIndex = si + ml ∧
    (content.length > si + ml →
      format_documentation_result url content si ml =
        reportBase url content si ml ++ truncNote (si + ml)) ∧
    (¬ content.length > si + ml →
      format_documentation_result url content si ml =
        reportBase url content si ml) := by
  refine ⟨by simp [windowResult], rfl, ?_, ?_⟩ <;>
    intro hc <;> simp [format_documentation_result, hc]

/-- C2 witness: the statement at content `"abcdef"` (length 6),
`startIndex = 0`, `maxLength = 2` (a truncated case). -/
theorem C2_truncation_witness :
    ((windowResult (strLit "abcdef") 0 2).truncated = true ↔
      (strLit "abcdef").length > 0 + 2) ∧
    (windowResult (strLit "abcdef") 0 2).nextStartIndex = 0 + 2 ∧
    ((strLit "abcdef").length > 0 + 2 →
      format_documentation_result (strLit "u") (strLit "abcdef") 0 2 =
        reportBase (strLit "u") (strLit "abcdef") 0 2 ++ truncNote (0 + 2)) ∧
    (¬ (strLit "abcdef").length > 0 + 2 →
      format_documentation_result (strLit "u") (strLit "abcdef") 0 2 =
        reportBase (strLit "u") (strLit "abcdef") 0 2) :=
  C2_truncation (strLit "u") (strLit "abcdef") 0 2 (by decide)

/-- C3: windowing chains with no gap and no overlap — the body at
`startIndex` followed by the body at `startIndex + maxLength` is
exactly the slice of the content from `startIndex` of length at most
`2 * maxLength`; and on content of length 12000 with
`maxLength = 5000`, calls at start 0, 5000, 10000 give bodies of
lengths 5000, 5000, 2000 with truncation flags true, true, false and
resumption points 5000 and 10000. -/
theorem C3_chain (content : Str) (si ml : Nat) (h : 0 < ml) :
    ((windowResult content si ml).body ++ (windowResult content (si + ml) ml).body
      = (content.drop si).take (2 * ml)) ∧
    (let doc : Str := List.replicate 12000 'a'
     (windowResult doc 0 5000).body.length = 5000 ∧
     (windowResult doc 0 5000).truncated = true ∧
     (windowResult doc 0 5000).nextStartIndex = 5000 ∧
     (windowResult doc 5000 5000).body.length = 5000 ∧
     (windowResult doc 5000 5000).truncated = true ∧
     (windowResult doc 5000 5000).nextStartIndex = 10000 ∧
     (windowResult doc 10000 5000).body.length = 2000 ∧
     (windowResult doc 10000 5000).truncated = false) := by
  constructor
  · simp only [windowResult, pySlice]
    rw [two_mul, List.take_add, ← List.drop_drop]
  · norm_num [windowResult, pySlice, List.length_take, List.length_drop,
      List.length_replicate]

/-- C3 witness: the chaining identity at content `"ab"`,
`startIndex = 0`, `maxLength = 1`. -/
theorem C3_chain_witness :
    (windowResult (strLit "ab") 0 1).body ++ (windowResult (strLit "ab") (0 + 1) 1).body
      = ((strLit "ab").drop 0).take (2 * 1) :=
  (C3_chain (strLit "ab") 0 1 (by decide)).1

/-- C4 counterexample: the body `"<!doctype x"` with an empty declared
content type begins with the doctype token under case-insensitive
comparison, contains neither `text/html` in the content type nor
`<html` in its first 1000 characters, yet the classifier returns
PLAIN (`false`), because the code's `startswith('<!DOCTYPE')` is
case-sensitive. -/
theorem C4_counterexample :
    startsWithCI (pyStrip (strLit "<!doctype x")) (strLit "<!DOCTYPE") = true ∧
    strContains (strLit "text/html") (strLit "") = false ∧
    strContains (strLit "<html") ((strLit "<!doctype x").take 1000) = false ∧
    is_html_content (strLit "<!doctype x") (strLit "") = false := by decide

/-- Every list is a Boolean prefix of itself. -/
theorem isPrefixOf_self (l : Str) : l.isPrefixOf l = true := by
  induction l with
  | nil => rfl
  | cons c t ih => simp [List.isPrefixOf, ih]

/-- A string occurs in itself. -/
theorem strContains_self (n : Str) : strContains n n = true := by
  cases n with
  | nil => rfl
  | cons c t => simp [strContains, isPrefixOf_self]

/-- A string occurs in anything that ends with it. -/
theorem strContains_append_self (pre n : Str) :
    strContains n (pre ++ n) = true := by
  induction pre with
  | nil => simpa using strContains_self n
  | cons c rest ih => simp [strContains, ih]

/-- C4 (amended): the classifier returns HTML if the declared content
type contains `text/html` (regardless of body); otherwise HTML if the
whitespace-trimmed body begins with the doctype token compared
case-sensitively (exact spelling `<!DOCTYPE`) or `<html` occurs in the
first 1000 characters; otherwise PLAIN — and it is total: the
spec-shaped rule list agrees with the code's boolean expression on
every input. -/
theorem C4_classifier (body ctype : Str) :
    (classifySpec body ctype = .HTML ↔ is_html_content body ctype = true) ∧
    (strContains (strLit "text/html") ctype = true → classifySpec body ctype = .HTML) ∧
    (classifySpec body ctype = .HTML ∨ classifySpec body ctype = .PLAIN) := by
  unfold classifySpec is_html_content
  refine ⟨?_, ?_, ?_⟩ <;> split_ifs with h1 h2 <;> simp_all

/-- C6: whenever the DDGS provider call raises, `search_documentation`
returns exactly the single synthetic result — empty title and url,
description `Error searching OCI docs: ` followed by the error text —
so the list has length one, never empty, and the fault is reported as
data, not propagated. -/
theorem C6_search_failure (provider : Str → Nat → ProviderOutcome)
    (phrase : Str) (limit : Nat) (e : Str)
    (h : provider (searchQuery phrase) limit = .err e) :
    search_documentation provider phrase limit =
      [⟨[], [], strLit "Error searching OCI docs: " ++ e⟩] ∧
    (search_documentation provider phrase limit).length = 1 ∧
    ∀ r ∈ search_documentation provider phrase limit,
      r.title = [] ∧ r.url = [] ∧ strContains e r.description = true := by
  have hs : search_documentation provider phrase limit =
      [⟨[], [], strLit "Error searching OCI docs: " ++ e⟩] := by
    unfold search_documentation
    rw [h]
  refine ⟨hs, by rw [hs]; rfl, ?_⟩
  intro r hr
  rw [hs, List.mem_singleton] at hr
  subst hr
  exact ⟨rfl, rfl, strContains_append_self _ _⟩

/-- C6 witness: a provider that always raises `boom`, queried with
phrase `x` and limit 3. -/
theorem C6_search_failure_witness :
    search_documentation (fun _ _ => .err (strLit "boom")) (strLit "x") 3 =
      [⟨[], [], strLit "Error searching OCI docs: " ++ strLit "boom"⟩] :=
  (C6_search_failure (fun _ _ => .err (strLit "boom")) (strLit "x") 3
    (strLit "boom") rfl).1

/-- C8: on a successful provider response honoring the requested
`max_results = limit` bound, the output maps each record in order to
(title, href, body) with absent fields defaulted to the empty string,
has exactly one entry per record, and so has at most `limit`
entries. -/
theorem C8_search_success (provider : Str → Nat → ProviderOutcome)
    (phrase : Str) (limit : Nat) (rs : List RawRecord)
    (h : provider (searchQuery phrase) limit = .ok (some rs))
    (hlim : rs.length ≤ limit) :
    search_documentation provider phrase limit =
      rs.map (fun r => ⟨r.title.getD [], r.href.getD [], r.body.getD []⟩) ∧
    (search_documentation provider phrase limit).length = rs.length ∧
    (search_documentation provider phrase limit).length ≤ limit := by
  have hs : search_documentation provider phrase limit =
      rs.map (fun r => ⟨r.title.getD [], r.href.getD [], r.body.getD []⟩) := by
    unfold search_documentation
    rw [h]
  refine ⟨hs, ?_, ?_⟩ <;> rw [hs, List.length_map]
  exact hlim

/-- C8 witness: one record with a missing `href` field maps to a
result with an empty url. -/
theorem C8_search_success_witness :
    search_documentation
        (fun _ _ => .ok (some [⟨some (strLit "T"), none, some (strLit "B")⟩]))
        (strLit "q") 3 =
      [⟨strLit "T", [], strLit "B"⟩] := by
  have h := C8_search_success
    (fun _ _ => .ok (some [⟨some (strLit "T"), none, some (strLit "B")⟩]))
    (strLit "q") 3 [⟨some (strLit "T"), none, some (strLit "B")⟩] rfl (by decide)
  rw [h.1]
  rfl

/-- C10: when the provider call succeeds but yields no records (a
`None` or empty response), `search_documentation` returns the empty
list — the synthetic single-result shape is reserved for provider
failures. -/
theorem C10_empty_success (provider : Str → Nat → ProviderOutcome)
    (phrase : Str) (limit : Nat)
    (h : provider (searchQuery phrase) limit = .ok none ∨
         provider (searchQuery phrase) limit = .ok (some [])) :
    search_documentation provider phrase limit = [] := by
  unfold search_documentation
  rcases h with h | h <;> rw [h]
  rfl

/-- C10 witness: a provider returning `None` gives the empty list. -/
theorem C10_empty_success_witness :
    search_documentation (fun _ _ => .ok none) (strLit "q") 3 = [] :=
  C10_empty_success (fun _ _ => .ok none) (strLit "q") 3 (Or.inl rfl)

/-- Dropping a matched prefix twice is the same as dropping it once. -/
theorem dropWhile_dropWhile_own (p : Char → Bool) (l : Str) :
    (l.dropWhile p).dropWhile p = l.dropWhile p := by
  induction l with
  | nil => rfl
  | cons a t ih =>
    cases hp : p a <;> simp [List.dropWhile_cons, hp, ih]

/-- The list `dropWhile p l` is obtained from `l` by removing a prefix. -/
theorem exists_dropWhile_append (p : Char → Bool) (l : Str) :
    ∃ t, t ++ l.dropWhile p = l := by
  induction l with
  | nil => exact ⟨[], rfl⟩
  | cons a tl ih =>
    cases hp : p a
    · exact ⟨[], by simp [List.dropWhile_cons, hp]⟩
    · obtain ⟨t, ht⟩ := ih
      exact ⟨a :: t, by simp [List.dropWhile_cons, hp, ht]⟩

/-- The head of `dropWhile p l` does not satisfy `p`. -/
theorem dropWhile_head_false (p : Char → Bool) (l : Str) (c : Char) (cs : Str)
    (h : l.dropWhile p = c :: cs) : p c = false := by
  induction l with
  | nil => simp at h
  | cons a tl ih =>
    cases hp : p a
    · rw [List.dropWhile_cons, if_neg (by simp [hp])] at h
      obtain ⟨h1, _⟩ := List.cons.injEq .. ▸ h
      rw [← h1]
      exact hp
    · rw [List.dropWhile_cons, if_pos (by simp [hp])] at h
      exact ih h

/-- A stripped string has no leading whitespace left. -/
theorem pyStrip_no_leading (s : Str) :
    (pyStrip s).dropWhile isPySpace = pyStrip s := by
  cases hm : pyStrip s with
  | nil => simp
  | cons c cs =>
    obtain ⟨t, ht⟩ := exists_dropWhile_append isPySpace (s.dropWhile isPySpace).reverse
    have h2 : pyStrip s ++ t.reverse = s.dropWhile isPySpace := by
      have h3 := congrArg List.reverse ht
      simpa [pyStrip, List.reverse_append] using h3
    have h4 : s.dropWhile isPySpace = c :: (cs ++ t.reverse) := by
      rw [← h2, hm]
      simp
    have hc : isPySpace c = false := dropWhile_head_false _ _ _ _ h4
    rw [List.dropWhile_cons, if_neg (by simp [hc])]

/-- Python's `strip` is idempotent. -/
theorem pyStrip_idem (s : Str) : pyStrip (pyStrip s) = pyStrip s := by
  conv_lhs => rw [pyStrip]
  rw [pyStrip_no_leading s]
  have h1 : (pyStrip s).reverse =
      ((s.dropWhile isPySpace).reverse).dropWhile isPySpace := by
    simp [pyStrip]
  rw [h1, dropWhile_dropWhile_own]
  rfl

set_option maxRecDepth 40000 in
/-- C9: the normalizer is a total pure function: on every input it
returns the script- and style-stripped, ATX-heading, whitespace-trimmed
text rendering; its output carries no surrounding whitespace
(stripping it again changes nothing); the empty input yields the empty
string; and on a concrete page the script body is gone and the `h1`
heading is rendered in ATX style. -/
theorem C9_normalizer_total (html : Str) :
    extract_content_from_html html =
      pyStrip (((stripNonContent (tokenizeHtml html) none).map renderToken).flatten) ∧
    pyStrip (extract_content_from_html html) = extract_content_from_html html ∧
    extract_content_from_html [] = [] ∧
    extract_content_from_html
        (strLit "<html><script>bad()</script><h1>Title</h1></html>") =
      strLit "# Title" ∧
    strContains (strLit "bad")
        (extract_content_from_html
          (strLit "<html><script>bad()</script><h1>Title</h1></html>")) = false :=
  ⟨rfl, pyStrip_idem _, rfl, by decide, by decide⟩

/-- C5 counterexample: the url `https://docs.oracle.com/a.txt?b=.html`
is on the approved host and its path `/a.txt` does not end in `.htm`
or `.html`, yet `read_documentation` does not return the
suffix-policy error — the code tests `endswith` on the whole url
string, whose query string ends in `.html` — and the result depends
on the HTTP collaborator, so a network call is performed. -/
theorem C5_counterexample :
    matchesDomainPolicy (strLit "https://docs.oracle.com/a.txt?b=.html") = true ∧
    strEndsWith (beforeQuery (strLit "https://docs.oracle.com/a.txt?b=.html"))
      (strLit ".htm") = false ∧
    strEndsWith (beforeQuery (strLit "https://docs.oracle.com/a.txt?b=.html"))
      (strLit ".html") = false ∧
    read_documentation (fun _ => FetchOutcome.response 200 (strLit "hi") (strLit "text/plain"))
        (strLit "https://docs.oracle.com/a.txt?b=.html") 5000 0 ≠
      strLit "Error: URL must end with .htm or .html" ∧
    read_documentation (fun _ => FetchOutcome.httpError (strLit "boom"))
        (strLit "https://docs.oracle.com/a.txt?b=.html") 5000 0 ≠
      read_documentation (fun _ => FetchOutcome.response 200 (strLit "hi") (strLit "text/plain"))
        (strLit "https://docs.oracle.com/a.txt?b=.html") 5000 0 := by decide

/-- C5 (amended): a url failing the domain policy makes
`read_documentation` return the domain-policy error string, and a url
on the approved host is rejected with the suffix-policy error string
exactly when the whole url string (not its path) ends in neither
`.htm` nor `.html`; in both rejected cases the result is independent
of the HTTP collaborator — no network call is consulted. -/
theorem C5_policy (url : Str) (ml si : Nat) (f g : Str → FetchOutcome)
    (h : matchesDomainPolicy url = false ∨
         (strEndsWith url (strLit ".htm") = false ∧
          strEndsWith url (strLit ".html") = false)) :
    (read_documentation f url ml si =
      if matchesDomainPolicy url then strLit "Error: URL must end with .htm or .html"
      else strLit "Error: URL must be from the docs.oracle.com domain") ∧
    read_documentation f url ml si = read_documentation g url ml si := by
  rcases h with h | ⟨h1, h2⟩
  · constructor <;> simp [read_documentation, h]
  · cases hd : matchesDomainPolicy url
    · constructor <;> simp [read_documentation, hd]
    · constructor <;> simp [read_documentation, hd, h1, h2]

/-- C5 witness: a wrong-host url and a wrong-suffix url are both
rejected with the documented error strings, for a fetcher that would
error if consulted. -/
theorem C5_policy_witness :
    read_documentation (fun _ => FetchOutcome.httpError [])
        (strLit "https://example.com/page.htm") 5000 0 =
      strLit "Error: URL must be from the docs.oracle.com domain" ∧
    read_documentation (fun _ => FetchOutcome.httpError [])
        (strLit "https://docs.oracle.com/page.txt") 5000 0 =
      strLit "Error: URL must end with .htm or .html" := by
  constructor
  · have h := (C5_policy (strLit "https://example.com/page.htm") 5000 0
      (fun _ => FetchOutcome.httpError []) (fun _ => FetchOutcome.httpError [])
      (Or.inl (by decide))).1
    rw [show matchesDomainPolicy (strLit "https://example.com/page.htm") = false
      from by decide] at h
    simpa using h
  · have h := (C5_policy (strLit "https://docs.oracle.com/page.txt") 5000 0
      (fun _ => FetchOutcome.httpError []) (fun _ => FetchOutcome.httpError [])
      (Or.inr (by decide))).1
    rw [show matchesDomainPolicy (strLit "https://docs.oracle.com/page.txt") = true
      from by decide] at h
    simpa using h

/-- C7: whatever the HTTP collaborator does, `read_documentation`
returns either a string beginning `Error: ` (policy violations), a
string beginning `Failed to fetch` (transport or status failures), or
the formatted report of some content, which itself is the documented
base report optionally extended by the truncation note — no other
output shape exists. -/
theorem C7_output_shape (f : Str → FetchOutcome) (url : Str) (ml si : Nat) :
    (∃ rest, read_documentation f url ml si = strLit "Error: " ++ rest) ∨
    (∃ rest, read_documentation f url ml si = strLit "Failed to fetch " ++ rest) ∨
    (∃ content, read_documentation f url ml si =
        format_documentation_result url content si ml ∧
      format_documentation_result url content si ml =
        reportBase url content si ml ++
          (if content.length > si + ml then truncNote (si + ml) else [])) := by
  unfold read_documentation
  cases hd : matchesDomainPolicy url
  · left
    exact ⟨strLit "URL must be from the docs.oracle.com domain", by simp [hd]; decide⟩
  · cases he : (!strEndsWith url (strLit ".htm") && !strEndsWith url (strLit ".html"))
    · cases hf : f url with
      | httpError e =>
        right; left
        refine ⟨url ++ strLit ": " ++ e, ?_⟩
        simp [hd, he, hf, List.append_assoc]
      | response status body ctype =>
        by_cases hs : status ≥ 400
        · right; left
          refine ⟨url ++ strLit " - status code " ++ natStr status, ?_⟩
          simp [hd, he, hf, hs, List.append_assoc]
        · right; right
          refine ⟨if is_html_content body ctype then extract_content_from_html body
            else body, ?_, ?_⟩
          · simp [hd, he, hf, hs]
          · unfold format_documentation_result
            split_ifs <;> simp
    · left
      exact ⟨strLit "URL must end with .htm or .html", by simp [hd, he]; decide⟩

end OciDocs
